import Mathlib

/-!
Shallow embedding of the Airdrop-tracker client screens.

The repository is a React-Native client with four screens: the home tab
(catalog list, in tabs), the my-airdrops screen, the profile screen, and
the airdrop detail screen.  Each screen fetches JSON from a backend and
derives view data with small pure functions.  This file embeds those
functions: pure derivations become Lean functions over the same record
shapes; the effect of each async load on the component state is modelled
as a function from the fetch outcome (ok with a parsed body, non-OK HTTP
response, or a thrown network error) to the final state; the per-airdrop
detail fan-out is modelled by an oracle from airdrop id to the outcome of
that single fetch.
-/

namespace AirdropTracker

/-- Color palette of a theme object (the screens close over a value of the
themes table; the dark and light palettes share this shape). -/
structure Theme where
  background : String
  surface : String
  surfaceSecondary : String
  text : String
  textSecondary : String
  accent : String
  success : String
  warning : String
  error : String
  border : String
deriving DecidableEq, Repr

/-- The dark palette shared verbatim by every screen of the repository. -/
def themesDark : Theme :=
  { background := "#0a0a0a"
    surface := "#1a1a1a"
    surfaceSecondary := "#2a2a2a"
    text := "#ffffff"
    textSecondary := "#a0a0a0"
    accent := "#3b82f6"
    success := "#10b981"
    warning := "#f59e0b"
    error := "#ef4444"
    border := "#333333" }

/-- Record shape of the UserAirdropStatus interface (my-airdrops screen). -/
structure UserAirdropStatus where
  id : String
  user_id : String
  airdrop_id : String
  status : String
  completed_tasks : List String
  progress_percentage : Int
  wallet_address : Option String
  eligibility_checked : Bool
  is_eligible : Option Bool
  reminder_enabled : Bool
  notes : Option String
  created_at : String
  updated_at : String
deriving DecidableEq, Repr

/-- Record shape of the Airdrop interface of the my-airdrops screen.  The
source types the tasks array as any[] and only ever reads its length, so
its elements are embedded as opaque strings. -/
structure Airdrop where
  id : String
  name : String
  description : String
  blockchain : String
  status : String
  reward_amount : Option String
  reward_token : Option String
  deadline : Option String
  reputation_score : Int
  tasks : List String
deriving DecidableEq, Repr

/-- Outcome of one awaited fetch call: response.ok with a parsed JSON body,
a non-OK HTTP response, or a thrown network error. -/
inductive FetchOutcome (α : Type) where
  | ok : α → FetchOutcome α
  | httpError : FetchOutcome α
  | networkError : FetchOutcome α
deriving DecidableEq, Repr

namespace MyAirdrops

/-- Embedding of getStatusColor of the my-airdrops screen: switch over the
tracking status with a default branch returning the secondary text color.
The closed-over theme value is passed explicitly. -/
def getStatusColor (theme : Theme) (status : String) : String :=
  if status = "completed" then theme.success
  else if status = "in_progress" then theme.warning
  else if status = "not_started" then theme.textSecondary
  else theme.textSecondary

/-- Embedding of getStatusIcon: switch over the tracking status with the
outlined-ellipse icon as default branch. -/
def getStatusIcon (status : String) : String :=
  if status = "completed" then "checkmark-circle"
  else if status = "in_progress" then "time"
  else if status = "not_started" then "ellipse-outline"
  else "ellipse-outline"

/-- Embedding of getProgressBarColor: success color at exactly 100, warning
color from 50 up, accent color below 50. -/
def getProgressBarColor (theme : Theme) (percentage : Int) : String :=
  if percentage = 100 then theme.success
  else if percentage ≥ 50 then theme.warning
  else theme.accent

/-- Embedding of the filteredAirdrops derivation of the my-airdrops screen:
keep everything under the all filter, otherwise keep the statuses whose
tracking status equals the selected filter. -/
def filteredAirdrops (userAirdrops : List UserAirdropStatus)
    (selectedFilter : String) : List UserAirdropStatus :=
  userAirdrops.filter (fun userAirdrop =>
    if selectedFilter = "all" then true
    else userAirdrop.status == selectedFilter)

/-- The three statistics rendered by renderHeader.  The total field is the
number labelled Tracking in the header (length of the unfiltered list). -/
structure HeaderStats where
  total : Nat
  completed : Nat
  in_progress : Nat
deriving DecidableEq, Repr

/-- Embedding of the three stat numbers computed inline by renderHeader:
userAirdrops.length and the lengths of the two status filters. -/
def renderHeaderStats (userAirdrops : List UserAirdropStatus) : HeaderStats :=
  { total := userAirdrops.length
    completed := (userAirdrops.filter (fun ua => ua.status == "completed")).length
    in_progress := (userAirdrops.filter (fun ua => ua.status == "in_progress")).length }

/-- Count of statuses with the not-started tracking status.  renderHeader
does not display this number; it is stated only so the partition property
of the summary can be expressed. -/
def notStartedCount (userAirdrops : List UserAirdropStatus) : Nat :=
  (userAirdrops.filter (fun ua => ua.status == "not_started")).length

/-- The airdropDetails component state: a JS object keyed by airdrop id,
embedded as a lookup function. -/
abbrev DetailMap : Type := String → Option Airdrop

/-- The empty details object. -/
def emptyDetails : DetailMap := fun _ => none

/-- Embedding of the JS property assignment details[k] = v. -/
def setDetail (details : DetailMap) (k : String) (v : Airdrop) : DetailMap :=
  fun q => if q = k then some v else details q

/-- Embedding of the detail fan-out inside loadUserAirdrops: one fetch per
status, each wrapped in its own try/catch, writing into the shared details
object only when its own response is OK.  The oracle fetchDetail gives the
outcome of the single GET for one airdrop id (none covers both a thrown
error and a non-OK response, the two branches that skip the write).  Since
every fetch of the batch writes only its own key, the await Promise.all
interleaving is irrelevant and the batch is folded in list order. -/
def collectDetails (data : List UserAirdropStatus)
    (fetchDetail : String → Option Airdrop) : DetailMap :=
  data.foldl (fun details userAirdrop =>
    match fetchDetail userAirdrop.airdrop_id with
    | some airdropData => setDetail details userAirdrop.airdrop_id airdropData
    | none => details) emptyDetails

/-- Component state of the my-airdrops screen (the fields written by
loadUserAirdrops). -/
structure ScreenState where
  userAirdrops : List UserAirdropStatus
  airdropDetails : DetailMap
  loading : Bool

/-- Embedding of loadUserAirdrops: on an OK user-airdrops response the
status list and the collected details are stored; a non-OK response and a
thrown error only log; the finally block clears the loading flag on every
path. -/
def loadUserAirdrops (st : ScreenState)
    (response : FetchOutcome (List UserAirdropStatus))
    (fetchDetail : String → Option Airdrop) : ScreenState :=
  let st1 :=
    match response with
    | .ok data =>
        { st with userAirdrops := data
                  airdropDetails := collectDetails data fetchDetail }
    | .httpError => st
    | .networkError => st
  { st1 with loading := false }

/-- Data of one rendered airdrop card: the fields of the status record and
of its catalog record that renderAirdropCard reads. -/
structure AirdropViewModel where
  key : String
  name : String
  blockchain : String
  status : String
  statusIcon : String
  statusColor : String
  progress_percentage : Int
  progressBarColor : String
  completedTaskCount : Nat
  totalTaskCount : Nat
  eligibilityBadge : Option (Option Bool)
  rewardInfo : Option (Option String × Option String)
  deadline : Option String
deriving DecidableEq, Repr

/-- The card built by renderAirdropCard once the catalog record is at hand. -/
def mkCardView (theme : Theme) (userAirdrop : UserAirdropStatus)
    (airdrop : Airdrop) : AirdropViewModel :=
  { key := userAirdrop.id
    name := airdrop.name
    blockchain := airdrop.blockchain
    status := userAirdrop.status
    statusIcon := getStatusIcon userAirdrop.status
    statusColor := getStatusColor theme userAirdrop.status
    progress_percentage := userAirdrop.progress_percentage
    progressBarColor := getProgressBarColor theme userAirdrop.progress_percentage
    completedTaskCount := userAirdrop.completed_tasks.length
    totalTaskCount := airdrop.tasks.length
    eligibilityBadge :=
      if userAirdrop.eligibility_checked then some userAirdrop.is_eligible else none
    rewardInfo :=
      if airdrop.reward_amount.isSome || airdrop.reward_token.isSome then
        some (airdrop.reward_amount, airdrop.reward_token)
      else none
    deadline := airdrop.deadline }

/-- Embedding of renderAirdropCard: null (none) when the details object has
no entry for the airdrop id of the status, otherwise the combined card. -/
def renderAirdropCard (theme : Theme) (airdropDetails : DetailMap)
    (userAirdrop : UserAirdropStatus) : Option AirdropViewModel :=
  match airdropDetails userAirdrop.airdrop_id with
  | none => none
  | some airdrop => some (mkCardView theme userAirdrop airdrop)

/-- The list of cards actually rendered by mapping renderAirdropCard over a
status list; null results render nothing, so the output keeps exactly the
non-null cards in order. -/
def renderedCards (theme : Theme) (airdropDetails : DetailMap)
    (statuses : List UserAirdropStatus) : List AirdropViewModel :=
  statuses.filterMap (renderAirdropCard theme airdropDetails)

/-- Everything derived by one render pass of the my-airdrops screen: the
header statistics and the filtered card list. -/
structure ScreenView where
  stats : HeaderStats
  cards : List AirdropViewModel

/-- One render pass of the my-airdrops screen: renderHeader reads the
unfiltered userAirdrops state, the card list maps renderAirdropCard over
the filteredAirdrops derivation. -/
def renderScreen (theme : Theme) (userAirdrops : List UserAirdropStatus)
    (airdropDetails : DetailMap) (selectedFilter : String) : ScreenView :=
  { stats := renderHeaderStats userAirdrops
    cards := renderedCards theme airdropDetails
      (filteredAirdrops userAirdrops selectedFilter) }

end MyAirdrops

/-- Body of the POST checkin response on success. -/
structure CheckinResult where
  points_earned : Int
  streak : Int
  total_points : Int
deriving DecidableEq, Repr

namespace Profile

/-- Preference block of the User interface of the profile screen. -/
structure UserPreferences where
  theme : String
  notifications : Bool
  preferred_blockchains : List String
deriving DecidableEq, Repr

/-- Record shape of the User interface of the profile screen. -/
structure User where
  id : String
  wallet_addresses : List String
  daily_streak : Int
  total_points : Int
  last_checkin : Option String
  preferences : UserPreferences
  created_at : String
deriving DecidableEq, Repr

/-- Component state of the profile screen (the fields written by
loadUserData). -/
structure ScreenState where
  user : Option User
  loading : Bool
  isDarkMode : Bool
  notificationsEnabled : Bool
deriving Repr

/-- Embedding of loadUserData: an OK response stores the user record and
derives the two toggle states from its preferences; a non-OK response has
no handler branch and a thrown error only logs; the finally block clears
the loading flag on every path. -/
def loadUserData (st : ScreenState) (response : FetchOutcome User) : ScreenState :=
  let st1 :=
    match response with
    | .ok userData =>
        { st with user := some userData
                  isDarkMode := userData.preferences.theme == "dark"
                  notificationsEnabled := userData.preferences.notifications != false }
    | .httpError => st
    | .networkError => st
  { st1 with loading := false }

/-- Embedding of handleDailyCheckin of the profile screen: on an OK checkin
response the functional setUser update copies the previous record and
overwrites total points, streak and last checkin (the latter with the ISO
string of the current instant); a non-OK response and a thrown error only
raise an alert, leaving the user state untouched. -/
def handleDailyCheckin (user : Option User)
    (response : FetchOutcome CheckinResult) (nowISOString : String) : Option User :=
  match response with
  | .ok result =>
      user.map (fun prev =>
        { prev with
          total_points := result.total_points
          daily_streak := result.streak
          last_checkin := some nowISOString })
  | .httpError => user
  | .networkError => user

/-- Local calendar instant: what a JS Date holds once projected to the
local timezone of the device, to minute precision (the fields finer than
the day never influence the embedded code). -/
structure LocalDateTime where
  year : Int
  month : Nat
  day : Nat
  hour : Nat
  minute : Nat
deriving DecidableEq, Repr

/-- Embedding of Date.toDateString, which prints the local weekday, month,
day and year of the instant: two instants agree on it exactly when they
fall on the same local calendar date, so it is embedded as the projection
to that date. -/
def toDateString (t : LocalDateTime) : Int × Nat × Nat :=
  (t.year, t.month, t.day)

/-- Embedding of canCheckinToday: true when the user has no last checkin,
otherwise true exactly when the date strings of the last checkin and of
the current instant differ.  The new Date(user.last_checkin) parse is
abstracted by passing the last checkin as an already-parsed local instant. -/
def canCheckinToday (last_checkin : Option LocalDateTime)
    (today : LocalDateTime) : Bool :=
  match last_checkin with
  | none => true
  | some lastCheckin => decide (toDateString lastCheckin ≠ toDateString today)

end Profile

namespace AirdropDetail

/-- Record shape of the Task interface of the airdrop detail screen. -/
structure Task where
  id : String
  title : String
  description : String
  type : String
  url : Option String
  required : Bool
deriving DecidableEq, Repr

/-- Record shape of the Airdrop interface of the airdrop detail screen. -/
structure DetailAirdrop where
  id : String
  name : String
  description : String
  blockchain : String
  status : String
  reward_amount : Option String
  reward_token : Option String
  deadline : Option String
  snapshot_date : Option String
  listing_date : Option String
  official_url : String
  logo_url : Option String
  tasks : List Task
  requirements : List String
  social_links : List (String × String)
  reputation_score : Int
deriving DecidableEq, Repr

/-- Component state of the detail screen (the fields written by
fetchAirdropDetails; the alert field records a raised Alert.alert title
and message). -/
structure ScreenState where
  airdrop : Option DetailAirdrop
  loading : Bool
  alert : Option (String × String)
deriving Repr

/-- Embedding of fetchAirdropDetails: an OK response stores the record, a
non-OK response and a thrown error raise an error alert, and the finally
block clears the loading flag on every path. -/
def fetchAirdropDetails (st : ScreenState)
    (response : FetchOutcome DetailAirdrop) : ScreenState :=
  let st1 :=
    match response with
    | .ok data => { st with airdrop := some data }
    | .httpError => { st with alert := some ("Error", "Failed to load airdrop details") }
    | .networkError => { st with alert := some ("Error", "Network error occurred") }
  { st1 with loading := false }

/-- Embedding of getStatusColor of the detail screen: switch over the
lifecycle status with a default branch returning the secondary text color. -/
def getStatusColor (theme : Theme) (status : String) : String :=
  if status = "active" then theme.success
  else if status = "upcoming" then theme.warning
  else if status = "expired" then theme.error
  else theme.textSecondary

/-- Embedding of getTaskIcon: lookup in the icon table with the
checkmark-circle icon as fallback. -/
def getTaskIcon (type : String) : String :=
  if type = "social" then "people"
  else if type = "staking" then "wallet"
  else if type = "snapshot" then "camera"
  else if type = "trading" then "swap-horizontal"
  else if type = "other" then "checkmark-circle"
  else "checkmark-circle"

end AirdropDetail

namespace Home

/-- Record shape of the Airdrop interface of the home tab screen. -/
structure HomeAirdrop where
  id : String
  name : String
  description : String
  blockchain : String
  status : String
  reward_amount : Option String
  reward_token : Option String
  deadline : Option String
  reputation_score : Int
  logo_url : Option String
deriving DecidableEq, Repr

/-- Record shape of the User interface of the home tab screen. -/
structure HomeUser where
  id : String
  total_points : Int
  daily_streak : Int
  last_checkin : Option String
deriving DecidableEq, Repr

/-- Embedding of getStatusColor of the home tab screen: switch over the
lifecycle status with a default branch returning the secondary text color. -/
def getStatusColor (theme : Theme) (status : String) : String :=
  if status = "active" then theme.success
  else if status = "upcoming" then theme.warning
  else if status = "expired" then theme.error
  else theme.textSecondary

/-- Embedding of getBlockchainIcon: lookup in the icon table with the cube
icon as fallback. -/
def getBlockchainIcon (blockchain : String) : String :=
  if blockchain = "ethereum" then "logo-ethereum"
  else if blockchain = "solana" then "logo-solana"
  else if blockchain = "bsc" then "logo-bitcoin"
  else if blockchain = "arbitrum" then "triangle"
  else if blockchain = "polygon" then "diamond"
  else if blockchain = "optimism" then "ellipse"
  else "cube"

/-- Embedding of the filteredAirdrops derivation of the home tab screen:
keep everything under the all filter, otherwise keep the catalog records
whose lifecycle status equals the selected filter. -/
def filteredAirdrops (airdrops : List HomeAirdrop)
    (selectedFilter : String) : List HomeAirdrop :=
  airdrops.filter (fun airdrop =>
    if selectedFilter = "all" then true
    else airdrop.status == selectedFilter)

/-- Embedding of handleDailyCheckin of the home tab screen: on an OK
checkin response the functional setUser update copies the previous record
and overwrites total points and streak only; a non-OK response and a
thrown error only raise an alert, leaving the user state untouched. -/
def handleDailyCheckin (user : Option HomeUser)
    (response : FetchOutcome CheckinResult) : Option HomeUser :=
  match response with
  | .ok result =>
      user.map (fun prev =>
        { prev with
          total_points := result.total_points
          daily_streak := result.streak })
  | .httpError => user
  | .networkError => user

end Home

/-- Sample catalog record, mirroring the end-to-end scenario of the spec. -/
def sampleAirdrop : Airdrop :=
  { id := "a1"
    name := "Alpha Drop"
    description := "d"
    blockchain := "ethereum"
    status := "active"
    reward_amount := some "100"
    reward_token := some "USDC"
    deadline := none
    reputation_score := 80
    tasks := ["t1", "t2"] }

/-- Sample tracking record pointing at the sample catalog record. -/
def sampleStatus : UserAirdropStatus :=
  { id := "u1"
    user_id := "user_123"
    airdrop_id := "a1"
    status := "in_progress"
    completed_tasks := ["t1"]
    progress_percentage := 60
    wallet_address := none
    eligibility_checked := false
    is_eligible := none
    reminder_enabled := false
    notes := none
    created_at := "2024-01-01"
    updated_at := "2024-01-02" }

/-- Sample tracking record whose airdrop id has no catalog entry. -/
def missingStatus : UserAirdropStatus :=
  { sampleStatus with id := "u2", airdrop_id := "a2" }

/-- Sample tracking record carrying a status string outside the recognized
tracking vocabulary. -/
def pendingStatus : UserAirdropStatus :=
  { sampleStatus with id := "u3", status := "pending" }

/-- Sample catalog record of the home tab screen. -/
def sampleHomeAirdrop : Home.HomeAirdrop :=
  { id := "a1"
    name := "Alpha Drop"
    description := "d"
    blockchain := "ethereum"
    status := "active"
    reward_amount := some "100"
    reward_token := some "USDC"
    deadline := none
    reputation_score := 80
    logo_url := none }

/-- Sample details object holding only the sample catalog record. -/
def sampleDetails : MyAirdrops.DetailMap :=
  MyAirdrops.setDetail MyAirdrops.emptyDetails "a1" sampleAirdrop

/-- Sample detail-fetch oracle of a partial-failure batch: the fetch for a1
succeeds and every other fetch fails. -/
def sampleFetch : String → Option Airdrop :=
  fun k => if k = "a1" then some sampleAirdrop else none

/-- Length of a filterMap equals the length of the filter by success of the
partial function. -/
theorem length_filterMap_eq {α β : Type} (f : α → Option β) :
    ∀ l : List α, (l.filterMap f).length = (l.filter (fun x => (f x).isSome)).length := by
  intro l
  induction l with
  | nil => rfl
  | cons x t ih =>
    cases hx : f x with
    | none => simpa [List.filterMap_cons, List.filter_cons, hx] using ih
    | some b => simpa [List.filterMap_cons, List.filter_cons, hx] using ih

/-- Two filters by predicates that never hold together are jointly shorter
than the list. -/
theorem length_filter_add_filter_le {α : Type} (p q : α → Bool)
    (h : ∀ x, p x = true → q x = false) :
    ∀ l : List α, (l.filter p).length + (l.filter q).length ≤ l.length := by
  intro l
  induction l with
  | nil => exact Nat.le_refl 0
  | cons x t ih =>
    cases hp : p x with
    | true =>
      have hq := h x hp
      simp [List.filter_cons, hp, hq]
      omega
    | false =>
      cases hq : q x with
      | true =>
        simp [List.filter_cons, hp, hq]
        omega
      | false =>
        simp [List.filter_cons, hp, hq]
        omega

/-- The three tracking-status counts partition a list whose statuses all
lie in the recognized vocabulary. -/
theorem status_counts_partition :
    ∀ l : List UserAirdropStatus,
      (∀ ua ∈ l, ua.status = "not_started" ∨ ua.status = "in_progress"
        ∨ ua.status = "completed") →
      (l.filter (fun ua => ua.status == "completed")).length
        + (l.filter (fun ua => ua.status == "in_progress")).length
        + (l.filter (fun ua => ua.status == "not_started")).length = l.length := by
  intro l
  induction l with
  | nil => intro _; rfl
  | cons ua t ih =>
    intro h
    have h1 := h ua (List.mem_cons_self ua t)
    have h2 := ih (fun x hx => h x (List.mem_cons_of_mem ua hx))
    rcases h1 with h1 | h1 | h1 <;>
      simp [List.filter_cons, h1] <;> omega

/-- Fold of the detail batch at a key whose own fetch fails: the details
object keeps its previous value at that key. -/
theorem collectDetails_go_failure (fetchDetail : String → Option Airdrop)
    (k : String) (hk : fetchDetail k = none) :
    ∀ (data : List UserAirdropStatus) (m : MyAirdrops.DetailMap),
      List.foldl (fun details userAirdrop =>
        match fetchDetail userAirdrop.airdrop_id with
        | some airdropData => MyAirdrops.setDetail details userAirdrop.airdrop_id airdropData
        | none => details) m data k = m k := by
  intro data
  induction data with
  | nil => intro m; rfl
  | cons ua t ih =>
    intro m
    cases hf : fetchDetail ua.airdrop_id with
    | none =>
      simp only [List.foldl_cons, hf]
      exact ih m
    | some v =>
      have hne : k ≠ ua.airdrop_id := by
        intro he
        rw [he, hf] at hk
        exact Option.noConfusion hk
      simp only [List.foldl_cons, hf]
      rw [ih (MyAirdrops.setDetail m ua.airdrop_id v)]
      simp [MyAirdrops.setDetail, hne]

/-- Fold of the detail batch at a key whose own fetch succeeds: once some
element of the batch carries that key (or the accumulator already holds the
fetched record), the final details object holds the fetched record. -/
theorem collectDetails_go_success (fetchDetail : String → Option Airdrop)
    (k : String) (a : Airdrop) (hk : fetchDetail k = some a) :
    ∀ (data : List UserAirdropStatus) (m : MyAirdrops.DetailMap),
      ((∃ ua ∈ data, ua.airdrop_id = k) ∨ m k = some a) →
      List.foldl (fun details userAirdrop =>
        match fetchDetail userAirdrop.airdrop_id with
        | some airdropData => MyAirdrops.setDetail details userAirdrop.airdrop_id airdropData
        | none => details) m data k = some a := by
  intro data
  induction data with
  | nil =>
    intro m h
    rcases h with ⟨ua, hmem, _⟩ | hm
    · exact absurd hmem (List.not_mem_nil ua)
    · exact hm
  | cons ua t ih =>
    intro m h
    by_cases he : ua.airdrop_id = k
    · have hf : fetchDetail ua.airdrop_id = some a := by rw [he]; exact hk
      simp only [List.foldl_cons, hf]
      apply ih
      right
      simp [MyAirdrops.setDetail, he]
    · have htail : (∃ x ∈ t, x.airdrop_id = k) ∨ m k = some a := by
        rcases h with ⟨x, hmem, hid⟩ | hm
        · rcases List.mem_cons.mp hmem with rfl | hmem2
          · exact absurd hid he
          · exact Or.inl ⟨x, hmem2, hid⟩
        · exact Or.inr hm
      cases hf : fetchDetail ua.airdrop_id with
      | none =>
        simp only [List.foldl_cons, hf]
        exact ih m htail
      | some v =>
        simp only [List.foldl_cons, hf]
        apply ih
        rcases htail with hex | hm
        · exact Or.inl hex
        · right
          have hkne : ¬ k = ua.airdrop_id := fun hkk => he hkk.symm
          simp [MyAirdrops.setDetail, hkne, hm]

/-- C1: for every status list S and every partial catalog mapping C, the
rendered output has exactly one card per status whose airdrop id is a key
of C; a status whose airdrop id is absent from C renders null (silently
dropped), and one whose id is present renders the combined card; the
output size equals the number of statuses whose id is a key of C. -/
theorem claim1_join_exact (theme : Theme) (S : List UserAirdropStatus)
    (C : MyAirdrops.DetailMap) :
    (MyAirdrops.renderedCards theme C S).length
        = (S.filter (fun s => (C s.airdrop_id).isSome)).length
    ∧ (∀ s ∈ S, C s.airdrop_id = none →
        MyAirdrops.renderAirdropCard theme C s = none)
    ∧ (∀ s a, C s.airdrop_id = some a →
        MyAirdrops.renderAirdropCard theme C s = some (MyAirdrops.mkCardView theme s a)) := by
  refine ⟨?_, ?_, ?_⟩
  · unfold MyAirdrops.renderedCards
    rw [length_filterMap_eq]
    congr 1
    apply List.filter_congr
    intro s _
    unfold MyAirdrops.renderAirdropCard
    cases C s.airdrop_id <;> rfl
  · intro s _ h
    simp [MyAirdrops.renderAirdropCard, h]
  · intro s a h
    simp [MyAirdrops.renderAirdropCard, h]

/-- Witness for C1 at concrete inputs: a tracked status whose airdrop id
is a key of the details object renders the combined card, and one whose
airdrop id is absent renders null. -/
theorem claim1_witness :
    MyAirdrops.renderAirdropCard themesDark sampleDetails missingStatus = none
    ∧ MyAirdrops.renderAirdropCard themesDark sampleDetails sampleStatus
        = some (MyAirdrops.mkCardView themesDark sampleStatus sampleAirdrop) :=
  ⟨(claim1_join_exact themesDark [sampleStatus, missingStatus] sampleDetails).2.1
      missingStatus (by decide) (by decide),
   (claim1_join_exact themesDark [sampleStatus, missingStatus] sampleDetails).2.2
      sampleStatus sampleAirdrop (by decide)⟩

/-- C2: over the declared integer domain 0..100, getProgressBarColor is
deterministic and boundary-exact: the success (complete) color exactly at
100, the warning color exactly on 50..99, the accent (default) color
exactly below 50; in particular at 49, 50, 99 and 100. -/
theorem claim2_progress_color :
    (∀ percentage : Int, 0 ≤ percentage → percentage ≤ 100 →
      ((MyAirdrops.getProgressBarColor themesDark percentage = themesDark.success
          ↔ percentage = 100)
        ∧ (MyAirdrops.getProgressBarColor themesDark percentage = themesDark.warning
          ↔ 50 ≤ percentage ∧ percentage < 100)
        ∧ (MyAirdrops.getProgressBarColor themesDark percentage = themesDark.accent
          ↔ percentage < 50)))
    ∧ MyAirdrops.getProgressBarColor themesDark 49 = themesDark.accent
    ∧ MyAirdrops.getProgressBarColor themesDark 50 = themesDark.warning
    ∧ MyAirdrops.getProgressBarColor themesDark 99 = themesDark.warning
    ∧ MyAirdrops.getProgressBarColor themesDark 100 = themesDark.success := by
  refine ⟨?_, by decide, by decide, by decide, by decide⟩
  intro percentage h0 h100
  unfold MyAirdrops.getProgressBarColor
  split_ifs with h1 h2
  · exact ⟨⟨fun _ => h1, fun _ => rfl⟩,
      ⟨fun hw => absurd hw (by decide), fun hw => absurd h1 (by omega)⟩,
      ⟨fun hd => absurd hd (by decide), fun hd => absurd h1 (by omega)⟩⟩
  · exact ⟨⟨fun hw => absurd hw (by decide), fun hc => absurd hc h1⟩,
      ⟨fun _ => ⟨h2, by omega⟩, fun _ => rfl⟩,
      ⟨fun hd => absurd hd (by decide), fun hd => absurd h2 (by omega)⟩⟩
  · exact ⟨⟨fun hc => absurd hc (by decide), fun hc => absurd hc h1⟩,
      ⟨fun hw => absurd hw (by decide), fun hw => absurd hw.1 h2⟩,
      ⟨fun _ => by omega, fun _ => rfl⟩⟩

/-- Witness for C2 at the concrete percentage 60: the warning color is
returned and 60 lies in the warning band. -/
theorem claim2_witness :
    MyAirdrops.getProgressBarColor themesDark 60 = themesDark.warning
      ↔ 50 ≤ (60 : Int) ∧ (60 : Int) < 100 :=
  ((claim2_progress_color.1 60 (by decide) (by decide)).2.1)

/-- C3: canCheckinToday is true when no last checkin is stored, false
exactly when last checkin and now fall on the same local calendar date,
true exactly when the dates differ; in particular a checkin at 23:59
followed by now at 00:01 on the next calendar day (under 24 hours later)
yields true. -/
theorem claim3_can_checkin :
    (∀ today : Profile.LocalDateTime, Profile.canCheckinToday none today = true)
    ∧ (∀ t today : Profile.LocalDateTime,
        Profile.toDateString t = Profile.toDateString today →
        Profile.canCheckinToday (some t) today = false)
    ∧ (∀ t today : Profile.LocalDateTime,
        Profile.toDateString t ≠ Profile.toDateString today →
        Profile.canCheckinToday (some t) today = true)
    ∧ Profile.canCheckinToday
        (some { year := 2024, month := 1, day := 1, hour := 23, minute := 59 })
        { year := 2024, month := 1, day := 2, hour := 0, minute := 1 } = true := by
  refine ⟨fun _ => rfl, ?_, ?_, by decide⟩
  · intro t today h
    exact decide_eq_false (fun hn => hn h)
  · intro t today h
    exact decide_eq_true h

/-- Witness for C3 at concrete instants: a checkin at 23:59 blocks another
checkin at 00:01 of the same calendar date, and allows one on a different
date. -/
theorem claim3_witness :
    Profile.canCheckinToday
        (some { year := 2024, month := 1, day := 1, hour := 23, minute := 59 })
        { year := 2024, month := 1, day := 1, hour := 0, minute := 1 } = false
    ∧ Profile.canCheckinToday
        (some { year := 2024, month := 1, day := 1, hour := 23, minute := 59 })
        { year := 2024, month := 2, day := 1, hour := 23, minute := 59 } = true :=
  ⟨claim3_can_checkin.2.1
      { year := 2024, month := 1, day := 1, hour := 23, minute := 59 }
      { year := 2024, month := 1, day := 1, hour := 0, minute := 1 } (by decide),
   claim3_can_checkin.2.2.1
      { year := 2024, month := 1, day := 1, hour := 23, minute := 59 }
      { year := 2024, month := 2, day := 1, hour := 23, minute := 59 } (by decide)⟩

/-- C4 counterexample: a status string outside the recognized tracking
vocabulary (pending) counts in the total but in none of the three status
buckets, so completed + in_progress + not_started differs from total. -/
theorem claim4_counterexample :
    ¬ ((MyAirdrops.renderHeaderStats [pendingStatus]).completed
        + (MyAirdrops.renderHeaderStats [pendingStatus]).in_progress
        + MyAirdrops.notStartedCount [pendingStatus]
      = (MyAirdrops.renderHeaderStats [pendingStatus]).total) := by decide

/-- C4 amended: total always equals the list length and completed plus
in_progress never exceeds it; the three-way partition equals the total
exactly under the proviso that every status string lies in the recognized
tracking vocabulary. -/
theorem claim4_summary_counts (vms : List UserAirdropStatus) :
    (MyAirdrops.renderHeaderStats vms).total = vms.length
    ∧ (MyAirdrops.renderHeaderStats vms).completed
        + (MyAirdrops.renderHeaderStats vms).in_progress ≤ vms.length
    ∧ ((∀ ua ∈ vms, ua.status = "not_started" ∨ ua.status = "in_progress"
          ∨ ua.status = "completed") →
        (MyAirdrops.renderHeaderStats vms).completed
          + (MyAirdrops.renderHeaderStats vms).in_progress
          + MyAirdrops.notStartedCount vms
        = (MyAirdrops.renderHeaderStats vms).total) := by
  refine ⟨rfl, ?_, ?_⟩
  · apply length_filter_add_filter_le
    intro ua hp
    have hs : ua.status = "completed" := by simpa using hp
    simp [hs]
  · intro h
    exact status_counts_partition vms h

/-- Witness for C4 at a concrete list of recognized statuses: the three
buckets partition the total. -/
theorem claim4_witness :
    (MyAirdrops.renderHeaderStats [sampleStatus]).completed
      + (MyAirdrops.renderHeaderStats [sampleStatus]).in_progress
      + MyAirdrops.notStartedCount [sampleStatus]
    = (MyAirdrops.renderHeaderStats [sampleStatus]).total :=
  (claim4_summary_counts [sampleStatus]).2.2 (by decide)

/-- C5: on both screens the all filter is the identity, any other filter
value keeps exactly the elements whose status equals it, and the filter is
stable (its output is a sublist of its input, so relative order is kept). -/
theorem claim5_filter (vms : List UserAirdropStatus)
    (airdrops : List Home.HomeAirdrop) (f : String) :
    MyAirdrops.filteredAirdrops vms "all" = vms
    ∧ Home.filteredAirdrops airdrops "all" = airdrops
    ∧ (f ≠ "all" →
        (∀ ua ∈ MyAirdrops.filteredAirdrops vms f, ua.status = f)
        ∧ (∀ a ∈ Home.filteredAirdrops airdrops f, a.status = f))
    ∧ (MyAirdrops.filteredAirdrops vms f).Sublist vms
    ∧ (Home.filteredAirdrops airdrops f).Sublist airdrops := by
  refine ⟨?_, ?_, ?_, ?_, ?_⟩
  · simp [MyAirdrops.filteredAirdrops]
  · simp [Home.filteredAirdrops]
  · intro hf
    constructor
    · intro ua hmem
      have hcond := List.of_mem_filter hmem
      rw [if_neg hf] at hcond
      simpa using hcond
    · intro a hmem
      have hcond := List.of_mem_filter hmem
      rw [if_neg hf] at hcond
      simpa using hcond
  · exact List.filter_sublist vms
  · exact List.filter_sublist airdrops

/-- Witness for C5 at a concrete filter value: every element surviving the
in_progress filter carries the in_progress status. -/
theorem claim5_witness : sampleStatus.status = "in_progress" :=
  ((claim5_filter [sampleStatus, pendingStatus] [sampleHomeAirdrop]
      "in_progress").2.2.1 (by decide)).1 sampleStatus (by decide)

/-- C6: in the detail fan-out each failure is isolated: every status whose
own fetch succeeds has its record in the final details object, and a key
whose fetch fails is merely absent; a sibling failure never discards a
successful result. -/
theorem claim6_detail_isolation (data : List UserAirdropStatus)
    (fetchDetail : String → Option Airdrop) :
    (∀ ua ∈ data, ∀ a, fetchDetail ua.airdrop_id = some a →
      MyAirdrops.collectDetails data fetchDetail ua.airdrop_id = some a)
    ∧ (∀ k, fetchDetail k = none →
      MyAirdrops.collectDetails data fetchDetail k = none) := by
  constructor
  · intro ua hmem a ha
    exact collectDetails_go_success fetchDetail ua.airdrop_id a ha data
      MyAirdrops.emptyDetails (Or.inl ⟨ua, hmem, rfl⟩)
  · intro k hk
    exact collectDetails_go_failure fetchDetail k hk data MyAirdrops.emptyDetails

/-- Witness for C6 at a concrete two-element batch where the second fetch
fails: the first (successful) record still lands in the details object and
the failed key is absent. -/
theorem claim6_witness :
    MyAirdrops.collectDetails [sampleStatus, missingStatus] sampleFetch
        sampleStatus.airdrop_id = some sampleAirdrop
    ∧ MyAirdrops.collectDetails [sampleStatus, missingStatus] sampleFetch "a2" = none :=
  ⟨(claim6_detail_isolation [sampleStatus, missingStatus] sampleFetch).1
      sampleStatus (by decide) sampleAirdrop (by decide),
   (claim6_detail_isolation [sampleStatus, missingStatus] sampleFetch).2
      "a2" (by decide)⟩

/-- C7: the status-to-color and status-to-icon mappings are total over
arbitrary status strings: every string yields one of the enumerated
outputs, and any string outside the recognized vocabulary falls back to
the secondary text color and the outlined-ellipse icon, on the tracking
vocabulary (my-airdrops screen) as well as on the lifecycle vocabulary
(detail and home screens). -/
theorem claim7_status_maps_total (theme : Theme) (s : String) :
    (MyAirdrops.getStatusColor theme s = theme.success
      ∨ MyAirdrops.getStatusColor theme s = theme.warning
      ∨ MyAirdrops.getStatusColor theme s = theme.textSecondary)
    ∧ (MyAirdrops.getStatusIcon s = "checkmark-circle"
      ∨ MyAirdrops.getStatusIcon s = "time"
      ∨ MyAirdrops.getStatusIcon s = "ellipse-outline")
    ∧ (s ≠ "completed" → s ≠ "in_progress" → s ≠ "not_started" →
        MyAirdrops.getStatusColor theme s = theme.textSecondary
        ∧ MyAirdrops.getStatusIcon s = "ellipse-outline")
    ∧ (AirdropDetail.getStatusColor theme s = theme.success
      ∨ AirdropDetail.getStatusColor theme s = theme.warning
      ∨ AirdropDetail.getStatusColor theme s = theme.error
      ∨ AirdropDetail.getStatusColor theme s = theme.textSecondary)
    ∧ (Home.getStatusColor theme s = theme.success
      ∨ Home.getStatusColor theme s = theme.warning
      ∨ Home.getStatusColor theme s = theme.error
      ∨ Home.getStatusColor theme s = theme.textSecondary)
    ∧ (s ≠ "active" → s ≠ "upcoming" → s ≠ "expired" →
        AirdropDetail.getStatusColor theme s = theme.textSecondary
        ∧ Home.getStatusColor theme s = theme.textSecondary) := by
  refine ⟨?_, ?_, ?_, ?_, ?_, ?_⟩
  · unfold MyAirdrops.getStatusColor
    split_ifs <;> simp
  · unfold MyAirdrops.getStatusIcon
    split_ifs <;> simp
  · intro h1 h2 h3
    constructor
    · unfold MyAirdrops.getStatusColor
      rw [if_neg h1, if_neg h2, if_neg h3]
    · unfold MyAirdrops.getStatusIcon
      rw [if_neg h1, if_neg h2, if_neg h3]
  · unfold AirdropDetail.getStatusColor
    split_ifs <;> simp
  · unfold Home.getStatusColor
    split_ifs <;> simp
  · intro h1 h2 h3
    constructor
    · unfold AirdropDetail.getStatusColor
      rw [if_neg h1, if_neg h2, if_neg h3]
    · unfold Home.getStatusColor
      rw [if_neg h1, if_neg h2, if_neg h3]

/-- Witness for C7 at a concrete unrecognized status string: both
vocabularies fall back to the secondary text color and the fallback icon. -/
theorem claim7_witness :
    (MyAirdrops.getStatusColor themesDark "mystery" = themesDark.textSecondary
      ∧ MyAirdrops.getStatusIcon "mystery" = "ellipse-outline")
    ∧ (AirdropDetail.getStatusColor themesDark "mystery" = themesDark.textSecondary
      ∧ Home.getStatusColor themesDark "mystery" = themesDark.textSecondary) :=
  ⟨(claim7_status_maps_total themesDark "mystery").2.2.1
      (by decide) (by decide) (by decide),
   (claim7_status_maps_total themesDark "mystery").2.2.2.2.2
      (by decide) (by decide) (by decide)⟩

/-- C8: on every outcome of a screen load (ok, non-OK response, thrown
network error) the finally block leaves the loading flag cleared, on the
my-airdrops, profile and detail screens alike. -/
theorem claim8_loading_cleared
    (st1 : MyAirdrops.ScreenState) (r1 : FetchOutcome (List UserAirdropStatus))
    (fetchDetail : String → Option Airdrop)
    (st2 : Profile.ScreenState) (r2 : FetchOutcome Profile.User)
    (st3 : AirdropDetail.ScreenState) (r3 : FetchOutcome AirdropDetail.DetailAirdrop) :
    (MyAirdrops.loadUserAirdrops st1 r1 fetchDetail).loading = false
    ∧ (Profile.loadUserData st2 r2).loading = false
    ∧ (AirdropDetail.fetchAirdropDetails st3 r3).loading = false :=
  ⟨rfl, rfl, rfl⟩

/-- C9 counterexample: on the home tab screen a successful check-in leaves
last_checkin at its stale stored value instead of the current time (here
the current instant is in 2025 while the field keeps its 2024 value), so
the claim that every successful check-in sets last_checkin to the current
time fails on this handler. -/
theorem claim9_counterexample :
    (Home.handleDailyCheckin
        (some { id := "user_123", total_points := 10, daily_streak := 1,
                last_checkin := some "2024-01-01T10:00:00.000Z" })
        (.ok { points_earned := 10, streak := 2, total_points := 20 })).map
      Home.HomeUser.last_checkin = some (some "2024-01-01T10:00:00.000Z")
    ∧ ("2024-01-01T10:00:00.000Z" : String) ≠ "2025-05-05T12:00:00.000Z" :=
  ⟨rfl, by decide⟩

/-- C9 amended: on the profile screen a successful check-in rewrites
exactly total_points and daily_streak from the response and last_checkin
to the current instant, keeping every other field; on the home tab screen
it rewrites exactly total_points and daily_streak, keeping last_checkin
and every other field; on both screens a failed check-in leaves the user
record untouched. -/
theorem claim9_checkin_frame (prev : Profile.User) (user : Option Profile.User)
    (hprev : Home.HomeUser) (huser : Option Home.HomeUser)
    (result : CheckinResult) (nowISOString : String) :
    Profile.handleDailyCheckin (some prev) (.ok result) nowISOString
      = some { prev with total_points := result.total_points,
                         daily_streak := result.streak,
                         last_checkin := some nowISOString }
    ∧ Profile.handleDailyCheckin user .httpError nowISOString = user
    ∧ Profile.handleDailyCheckin user .networkError nowISOString = user
    ∧ Home.handleDailyCheckin (some hprev) (.ok result)
      = some { hprev with total_points := result.total_points,
                          daily_streak := result.streak }
    ∧ Home.handleDailyCheckin huser .httpError = huser
    ∧ Home.handleDailyCheckin huser .networkError = huser :=
  ⟨rfl, rfl, rfl, rfl, rfl, rfl⟩

/-- C10: the header statistics of the my-airdrops screen are computed from
the unfiltered status list, so two render passes over the same fetched
data differing only in the selected filter display identical statistics. -/
theorem claim10_stats_filter_independent (theme : Theme)
    (userAirdrops : List UserAirdropStatus) (airdropDetails : MyAirdrops.DetailMap)
    (f1 f2 : String) :
    (MyAirdrops.renderScreen theme userAirdrops airdropDetails f1).stats
      = (MyAirdrops.renderScreen theme userAirdrops airdropDetails f2).stats := rfl

end AirdropTracker
